import Mathlib

set_option autoImplicit false

/-!
# Verification of the titan_rs resource-arena core

A shallow embedding of the keyed resource arenas, the per-resource creation
protocols, the teardown (`Drop`) protocols, the physical-device selection
algorithm, and the one-shot application initializer of the titan_rs engine,
together with theorems settling the specification claims about them.

Machine integers of the source (`u32` scores and image dimensions) are
modelled as `Nat`: no arithmetic in the verified paths can overflow `u32`
for realistic inputs, and a debug build of the source would panic rather
than wrap on overflow.
-/

namespace Titan

/-! ## Generational slot maps

The arenas of the engine are `slotmap::SlotMap` values from the external
`slotmap` crate, guarded by `RwLock` (`src/titan-engine/src/graphics/slotmap.rs`
only declares the `SlotMappable` trait over them). -/

/-- Modelled from the spec: the key type of the external `slotmap` crate
(whose source is not part of this repository). Per §3 of the spec, a key is
an (index, generation) pair, "unique for the lifetime of a slot". -/
structure SMKey where
  idx : Nat
  gen : Nat
deriving DecidableEq, Repr

/-- Modelled from the spec: one storage slot of a slot map, holding the
current generation of the slot and its value when occupied. -/
structure Slot (α : Type) where
  gen : Nat
  val : Option α
deriving Repr

/-- Modelled from the spec: the external `slotmap::SlotMap` container used as
the arena store (§4.1 of the spec): slots addressed by index, plus a free
list of vacant slot indices available for reuse. -/
structure SlotMap (α : Type) where
  slots : List (Slot α)
  free : List Nat
deriving Repr

namespace SlotMap

/-- The empty slot map. -/
def empty {α : Type} : SlotMap α := ⟨[], []⟩

/-- Modelled from the spec: `SlotMap::get` — "a pure lookup" (§4.1) that
resolves a key only when the slot at its index is live and the generations
agree, so that "premature access after destruction must fail safely". -/
def get {α : Type} (m : SlotMap α) (k : SMKey) : Option α :=
  match m.slots[k.idx]? with
  | none => none
  | some slot => if slot.gen = k.gen then slot.val else none

/-- Modelled from the spec: `SlotMap::insert_with_key` — "atomically allocates
a slot, assigns it a key, and runs `construct` with that key so
self-referential records are possible" (§4.1). A vacant slot from the free
list is reused under its current (already bumped) generation; otherwise a
fresh slot is appended. -/
def insert_with_key {α : Type} (m : SlotMap α) (construct : SMKey → α) :
    SlotMap α × SMKey :=
  match m.free with
  | i :: rest =>
    match m.slots[i]? with
    | some slot =>
      let k : SMKey := ⟨i, slot.gen⟩
      (⟨m.slots.set i ⟨slot.gen, some (construct k)⟩, rest⟩, k)
    | none =>
      let k : SMKey := ⟨m.slots.length, 0⟩
      (⟨m.slots ++ [⟨0, some (construct k)⟩], rest⟩, k)
  | [] =>
    let k : SMKey := ⟨m.slots.length, 0⟩
    (⟨m.slots ++ [⟨0, some (construct k)⟩], []⟩, k)

/-- Modelled from the spec: `SlotMap::remove` — "deletes a slot and returns
its record" (§4.1); the generation of the vacated slot is bumped so that "the
same key is never reissued by a later `insert`" (§8). -/
def remove {α : Type} (m : SlotMap α) (k : SMKey) : SlotMap α × Option α :=
  match m.slots[k.idx]? with
  | none => (m, none)
  | some slot =>
    if slot.gen = k.gen ∧ slot.val.isSome then
      (⟨m.slots.set k.idx ⟨slot.gen + 1, none⟩, k.idx :: m.free⟩, slot.val)
    else (m, none)

end SlotMap

/-! ## Arenas behind read/write locks

Each resource type owns one `static RwLock<SlotMap<Key, Self>>`
(`SlotMappable::slotmap()`). A lock acquisition returns `Err` when the lock
is poisoned; the source either propagates that with `?`, unwraps it, or
swallows it, depending on the call site. -/

/-- An arena: a slot map behind a read/write lock that may be poisoned. -/
structure Arena (α : Type) where
  poisoned : Bool
  map : SlotMap α

/-- `RwLock::read` / `RwLock::write`: `Err` when the lock is poisoned,
otherwise access to the guarded slot map. -/
def Arena.lock {α : Type} (a : Arena α) : Except Unit (SlotMap α) :=
  if a.poisoned then Except.error () else Except.ok a.map

/-- An arena over the empty slot map with a healthy lock. -/
def Arena.empty {α : Type} : Arena α := ⟨false, SlotMap.empty⟩

/-! ## Resource records

The payloads stored in the arenas, translated from the `struct` declarations
of `src/titan-engine/src/graphics/*`. Opaque native handles (`vk::*`) are
modelled as `Nat`. -/

/-- `Device` (its module is not among the sources; only the fields the
claims' code paths use are modelled: its native handle stands for the
`loader()` used for native calls). -/
structure Device where
  handle : Nat
deriving DecidableEq, Repr

/-- Modelled from the spec: the `Swapchain` record (its module is not among
the sources); per §3 of the spec it carries a parent device key, which is
all the verified code paths read from it. -/
structure Swapchain where
  parent_device : SMKey
deriving DecidableEq, Repr

/-- Modelled from the spec: the `RenderPass` record (its module is not among
the sources); `GraphicsPipeline::new`/`drop` read its native handle and its
parent swapchain key. -/
structure RenderPass where
  handle : Nat
  parent_swapchain : SMKey
deriving DecidableEq, Repr

/-- Modelled from the spec: the `PipelineLayout` record (its module is not
among the sources); `GraphicsPipeline::new` reads its native handle and its
parent device key. -/
structure PipelineLayout where
  handle : Nat
  parent_device : SMKey
deriving DecidableEq, Repr

/-- `CommandPool` (src/titan-engine/src/graphics/command/pool.rs): key,
native handle, parent device key. -/
structure CommandPool where
  key : SMKey
  handle : Nat
  parent_device : SMKey
deriving DecidableEq, Repr

/-- `Framebuffer` (src/titan-engine/src/graphics/framebuffer.rs): native
handle and parent device key (this type carries no key field and is never
inserted into an arena of its own). -/
structure Framebuffer where
  handle : Nat
  parent_device : SMKey
deriving DecidableEq, Repr

/-- `GraphicsPipeline` (src/titan-engine/src/graphics/pipeline/mod.rs): key,
native handle, and the two parent keys (render pass and pipeline layout). -/
structure GraphicsPipeline where
  key : SMKey
  handle : Nat
  parent_render_pass : SMKey
  parent_pipeline_layout : SMKey
deriving DecidableEq, Repr

/-- Modelled from the spec: the transient `ShaderModule` record (its module
is not among the sources); per §4.3 of the spec it is created and destroyed
inside `GraphicsPipeline::new` and "never registered in a long-lived
arena". -/
structure ShaderModule where
  handle : Nat
  parent_device : SMKey
deriving DecidableEq, Repr

/-- The collection of process-wide arenas touched by the verified code
paths; one arena per resource type, each with its own lock. -/
structure Arenas where
  devices : Arena Device
  swapchains : Arena Swapchain
  render_passes : Arena RenderPass
  pipeline_layouts : Arena PipelineLayout
  command_pools : Arena CommandPool

/-- All arenas empty and unpoisoned. -/
def Arenas.empty : Arenas :=
  ⟨Arena.empty, Arena.empty, Arena.empty, Arena.empty, Arena.empty⟩

/-! ## The native resource driver

§6 of the spec: the underlying graphics API exposes opaque, possibly
fallible `create_X` calls and infallible `destroy_X` calls. Creation
functions are fields of a `Driver` value so theorems quantify over every
driver behaviour; each invocation is recorded as a `NativeCall`. -/

/-- One invocation of the native resource driver, with the parent device
handle it was given and, for destroys, the handle being destroyed. -/
inductive NativeCall where
  | create_command_pool : Nat → NativeCall
  | destroy_command_pool : Nat → Nat → NativeCall
  | create_framebuffer : Nat → NativeCall
  | destroy_framebuffer : Nat → Nat → NativeCall
  | create_shader_module : Nat → Nat → NativeCall
  | destroy_shader_module : Nat → Nat → NativeCall
  | create_graphics_pipelines : Nat → NativeCall
  | destroy_pipeline : Nat → Nat → NativeCall
deriving DecidableEq, Repr

/-- The fallible native create entry points (§6: `create_X(parent_handle,
descriptor) -> Result<Handle, DriverError>`); descriptors beyond the shader
code are abstracted away since the verified properties never inspect them. -/
structure Driver where
  create_command_pool : Nat → Except String Nat
  create_framebuffer : Nat → Except String Nat
  create_shader_module : Nat → Nat → Except String Nat
  create_graphics_pipelines : Nat → Except String (List Nat)

/-- Outcome of a fallible Rust call: `Ok`, `Err`, or a panic (from `unwrap`
or `expect`). -/
inductive Res (α : Type) where
  | ok : α → Res α
  | err : String → Res α
  | panics : Res α
deriving DecidableEq, Repr

/-- The full effect of one embedded call: its outcome, the native driver
calls it performed in order, and the arenas as it left them. -/
structure Step (α : Type) where
  res : Res α
  calls : List NativeCall
  arenas : Arenas

/-! ## Creation protocols -/

/-- `CommandPool::new` (src/titan-engine/src/graphics/command/pool.rs,
lines 26–41): `read().unwrap()` on the device arena (panic on poison),
`get(device_key).expect("device not found")` (panic on a missing parent),
the native create (`?` on driver error), then `write().unwrap()` and
`insert_with_key` into the command-pool arena. -/
def CommandPool.new (d : Driver) (s : Arenas) (device_key : SMKey) :
    Step SMKey :=
  match s.devices.lock with
  | Except.error _ => ⟨Res.panics, [], s⟩
  | Except.ok slotmap_device =>
    match slotmap_device.get device_key with
    | none => ⟨Res.panics, [], s⟩
    | some device =>
      match d.create_command_pool device.handle with
      | Except.error e =>
        ⟨Res.err e, [NativeCall.create_command_pool device.handle], s⟩
      | Except.ok handle =>
        match s.command_pools.lock with
        | Except.error _ =>
          ⟨Res.panics, [NativeCall.create_command_pool device.handle], s⟩
        | Except.ok slotmap =>
          let r := slotmap.insert_with_key fun key =>
            CommandPool.mk key handle device_key
          ⟨Res.ok r.2, [NativeCall.create_command_pool device.handle],
            { s with command_pools := ⟨s.command_pools.poisoned, r.1⟩ }⟩

/-- `Framebuffer::new` (src/titan-engine/src/graphics/framebuffer.rs,
lines 15–29): `read()?` on the device arena (poison becomes an error),
`get(device_key).ok_or("device not found")`, then the native create; the
record is returned by value and inserted nowhere. -/
def Framebuffer.new (d : Driver) (s : Arenas) (device_key : SMKey) :
    Step Framebuffer :=
  match s.devices.lock with
  | Except.error _ => ⟨Res.err "poisoned lock", [], s⟩
  | Except.ok slotmap_device =>
    match slotmap_device.get device_key with
    | none => ⟨Res.err "device not found", [], s⟩
    | some device =>
      match d.create_framebuffer device.handle with
      | Except.error e =>
        ⟨Res.err e, [NativeCall.create_framebuffer device.handle], s⟩
      | Except.ok handle =>
        ⟨Res.ok ⟨handle, device_key⟩,
          [NativeCall.create_framebuffer device.handle], s⟩

/-- Modelled from the spec: `ShaderModule::new` (its module is not among the
sources). Per §4.3 of the spec it is a transient sibling resource built
during pipeline creation: it resolves its device parent and performs the
native create call, and is "never registered in a long-lived arena". -/
def ShaderModule.new (d : Driver) (s : Arenas) (device_key : SMKey)
    (code : Nat) : Res ShaderModule × List NativeCall :=
  match s.devices.lock with
  | Except.error _ => (Res.err "poisoned lock", [])
  | Except.ok slotmap_device =>
    match slotmap_device.get device_key with
    | none => (Res.err "device not found", [])
    | some device =>
      match d.create_shader_module device.handle code with
      | Except.error e =>
        (Res.err e, [NativeCall.create_shader_module device.handle code])
      | Except.ok handle =>
        (Res.ok ⟨handle, device_key⟩,
          [NativeCall.create_shader_module device.handle code])

/-- The vertex and fragment shader byte codes compiled into the binary
(`VERT_SHADER_CODE`, `FRAG_SHADER_CODE`), abstracted to tokens. -/
def VERT_SHADER_CODE : Nat := 0

/-- Fragment shader byte code token. -/
def FRAG_SHADER_CODE : Nat := 1

/-- `GraphicsPipeline::new` (src/titan-engine/src/graphics/pipeline/mod.rs,
lines 36–170): resolves the pipeline layout, the render pass, and the render
pass's swapchain (each `read()?` and `ok_or(...)`), rejects parents whose
device keys differ, resolves the device, creates the two transient shader
modules, invokes `create_graphics_pipelines`, and returns the record by
value (the transient shader modules are destroyed when `new` returns,
on the error paths past their creation as well). -/
def GraphicsPipeline.new (d : Driver) (s : Arenas) (key : SMKey)
    (render_pass_key : SMKey) (pipeline_layout_key : SMKey) :
    Step GraphicsPipeline :=
  match s.pipeline_layouts.lock with
  | Except.error _ => ⟨Res.err "poisoned lock", [], s⟩
  | Except.ok slotmap_pipeline_layout =>
  match slotmap_pipeline_layout.get pipeline_layout_key with
  | none => ⟨Res.err "pipeline layout not found", [], s⟩
  | some pipeline_layout =>
  match s.render_passes.lock with
  | Except.error _ => ⟨Res.err "poisoned lock", [], s⟩
  | Except.ok slotmap_render_pass =>
  match slotmap_render_pass.get render_pass_key with
  | none => ⟨Res.err "render pass not found", [], s⟩
  | some render_pass =>
  match s.swapchains.lock with
  | Except.error _ => ⟨Res.err "poisoned lock", [], s⟩
  | Except.ok slotmap_swapchain =>
  match slotmap_swapchain.get render_pass.parent_swapchain with
  | none => ⟨Res.err "swapchain not found", [], s⟩
  | some render_pass_swapchain =>
  if render_pass_swapchain.parent_device ≠ pipeline_layout.parent_device then
    ⟨Res.err "pipeline layout and render pass must have the same parent", [], s⟩
  else
  let device_key := render_pass_swapchain.parent_device
  match s.devices.lock with
  | Except.error _ => ⟨Res.err "poisoned lock", [], s⟩
  | Except.ok slotmap_device =>
  match slotmap_device.get device_key with
  | none => ⟨Res.err "device not found", [], s⟩
  | some device =>
  match ShaderModule.new d s device_key VERT_SHADER_CODE with
  | (Res.panics, calls) => ⟨Res.panics, calls, s⟩
  | (Res.err e, calls) => ⟨Res.err e, calls, s⟩
  | (Res.ok vert_shader_module, vert_calls) =>
  match ShaderModule.new d s device_key FRAG_SHADER_CODE with
  | (Res.panics, calls) =>
    ⟨Res.panics, vert_calls ++ calls
      ++ [NativeCall.destroy_shader_module device.handle
            vert_shader_module.handle], s⟩
  | (Res.err e, calls) =>
    ⟨Res.err e, vert_calls ++ calls
      ++ [NativeCall.destroy_shader_module device.handle
            vert_shader_module.handle], s⟩
  | (Res.ok frag_shader_module, frag_calls) =>
  let destroy_shaders :=
    [NativeCall.destroy_shader_module device.handle frag_shader_module.handle,
     NativeCall.destroy_shader_module device.handle vert_shader_module.handle]
  match d.create_graphics_pipelines device.handle with
  | Except.error _ =>
    ⟨Res.err "graphics pipeline was not created",
      vert_calls ++ frag_calls
        ++ [NativeCall.create_graphics_pipelines device.handle]
        ++ destroy_shaders, s⟩
  | Except.ok handles =>
    match handles.head? with
    | none =>
      ⟨Res.err "graphics pipeline was not created",
        vert_calls ++ frag_calls
          ++ [NativeCall.create_graphics_pipelines device.handle]
          ++ destroy_shaders, s⟩
    | some handle =>
      ⟨Res.ok ⟨key, handle, render_pass_key, pipeline_layout_key⟩,
        vert_calls ++ frag_calls
          ++ [NativeCall.create_graphics_pipelines device.handle]
          ++ destroy_shaders, s⟩

/-! ## Teardown protocols -/

/-- Outcome of one embedded `Drop` run: a native destroy call was made, the
body degraded to a silent no-op, or the body panicked. -/
inductive DropOutcome where
  | destroyed : NativeCall → DropOutcome
  | noop : DropOutcome
  | panics : DropOutcome
deriving DecidableEq, Repr

/-- `impl Drop for CommandPool` (src/titan-engine/src/graphics/command/pool.rs,
lines 74–82): `read().unwrap()` on the device arena, then
`get(...).expect("device not found")`, then the native destroy. -/
def CommandPool.drop (s : Arenas) (self : CommandPool) :
    DropOutcome × Arenas :=
  match s.devices.lock with
  | Except.error _ => (DropOutcome.panics, s)
  | Except.ok slotmap_device =>
    match slotmap_device.get self.parent_device with
    | none => (DropOutcome.panics, s)
    | some device =>
      (DropOutcome.destroyed
        (NativeCall.destroy_command_pool device.handle self.handle), s)

/-- `impl Drop for Framebuffer` (src/titan-engine/src/graphics/framebuffer.rs,
lines 40–52): a poisoned device lock or a missing device record makes the
body return early; otherwise the native destroy runs. -/
def Framebuffer.drop (s : Arenas) (self : Framebuffer) :
    DropOutcome × Arenas :=
  match s.devices.lock with
  | Except.error _ => (DropOutcome.noop, s)
  | Except.ok slotmap_device =>
    match slotmap_device.get self.parent_device with
    | none => (DropOutcome.noop, s)
    | some device =>
      (DropOutcome.destroyed
        (NativeCall.destroy_framebuffer device.handle self.handle), s)

/-- `impl Drop for GraphicsPipeline`
(src/titan-engine/src/graphics/pipeline/mod.rs, lines 185–215): walks render
pass → swapchain → device, returning early on any poisoned lock or missing
record; otherwise the native destroy runs. -/
def GraphicsPipeline.drop (s : Arenas) (self : GraphicsPipeline) :
    DropOutcome × Arenas :=
  match s.render_passes.lock with
  | Except.error _ => (DropOutcome.noop, s)
  | Except.ok slotmap_render_pass =>
  match slotmap_render_pass.get self.parent_render_pass with
  | none => (DropOutcome.noop, s)
  | some render_pass =>
  match s.swapchains.lock with
  | Except.error _ => (DropOutcome.noop, s)
  | Except.ok slotmap_swapchain =>
  match slotmap_swapchain.get render_pass.parent_swapchain with
  | none => (DropOutcome.noop, s)
  | some swapchain =>
  match s.devices.lock with
  | Except.error _ => (DropOutcome.noop, s)
  | Except.ok slotmap_device =>
  match slotmap_device.get swapchain.parent_device with
  | none => (DropOutcome.noop, s)
  | some device =>
    (DropOutcome.destroyed
      (NativeCall.destroy_pipeline device.handle self.handle), s)

/-! ## Physical-device suitability, scoring and selection

From src/titan-engine/src/graphics/device/physical.rs and
src/src/graphics/mod.rs. Vulkan `QueueFlags` are bitmasks; `GRAPHICS` is
bit 0 and `flags.contains(other)` is `flags & other == other`. -/

/-- `vk::QueueFlags::GRAPHICS`. -/
def GRAPHICS : Nat := 1

/-- `vk::QueueFlags::contains`: every bit of `other` is set in `self`. -/
def QueueFlags.contains (self other : Nat) : Bool :=
  self.land other == other

/-- `vk::QueueFamilyProperties`, reduced to the queue-flag bitmask (the only
field the verified code paths read). -/
structure QueueFamilyProperties where
  queue_flags : Nat
deriving DecidableEq, Repr

/-- `vk::PhysicalDeviceType`. -/
inductive PhysicalDeviceType where
  | discrete_gpu
  | integrated_gpu
  | virtual_gpu
  | cpu
  | other
deriving DecidableEq, Repr

/-- `PhysicalDevice` (src/titan-engine/src/graphics/device/physical.rs),
reduced to the fields that `is_suitable`, `score` and the `Ord` instance
read: the device type, `limits.max_image_dimension2_d`, the queue family
properties, and the extension property names (already decoded from the
fixed-size C strings of `vk::ExtensionProperties`). -/
structure PhysicalDevice where
  device_type : PhysicalDeviceType
  max_image_dimension2_d : Nat
  queue_family_properties : List QueueFamilyProperties
  extension_names : List String
deriving DecidableEq, Repr

namespace PhysicalDevice

/-- `PhysicalDevice::queue_family_properties_with` (physical.rs, lines
113–123): enumerate the queue families and keep those whose flags contain
the requested flags. -/
def queue_family_properties_with (self : PhysicalDevice) (flags : Nat) :
    List (Nat × QueueFamilyProperties) :=
  self.queue_family_properties.enum.filter fun p =>
    QueueFlags.contains p.2.queue_flags flags

/-- Rust `Iterator::find` on a by-reference iterator: scanning consumes the
iterator up to and including the first match; a failed scan consumes it
entirely. Returns the match flag and the remaining iterator. -/
def find_consuming (target : String) : List String → Bool × List String
  | [] => (false, [])
  | n :: rest =>
    if n = target then (true, rest) else find_consuming target rest

/-- The `REQUIRED_EXTENSIONS.iter().any(...)` scan of `is_suitable`
(physical.rs, lines 91–95): the closure captures the *same* names iterator
across all searches, so each `find` resumes where the previous one
stopped. -/
def any_find_consuming : List String → List String → Bool
  | _, [] => false
  | names, r :: rs =>
    let f := find_consuming r names
    if f.1 then true else any_find_consuming f.2 rs

/-- `PhysicalDevice::is_suitable` (physical.rs, lines 81–97): at least one
queue family with `GRAPHICS`, and the consuming required-extension scan
succeeds. `required` stands for `device::REQUIRED_EXTENSIONS`, a constant of
a source file not included in the sources. -/
def is_suitable (self : PhysicalDevice) (required : List String) : Bool :=
  let has_required_extensions :=
    any_find_consuming self.extension_names required
  !(self.queue_family_properties_with GRAPHICS).isEmpty
    && has_required_extensions

/-- `PhysicalDevice::score` (physical.rs, lines 99–107): 1000 for a discrete
GPU, 100 for an integrated GPU, 0 otherwise, plus
`limits.max_image_dimension2_d`. -/
def score (self : PhysicalDevice) : Nat :=
  let s : Nat :=
    match self.device_type with
    | PhysicalDeviceType.discrete_gpu => 1000
    | PhysicalDeviceType.integrated_gpu => 100
    | _ => 0
  s + self.max_image_dimension2_d

end PhysicalDevice

/-- Insertion step of the score-ascending sort used to model
`physical_devices.sort_unstable()` (whose comparator is the `Ord` instance
of physical.rs, lines 170–174: compare by `score`). -/
def insertByScore (d : PhysicalDevice) :
    List PhysicalDevice → List PhysicalDevice
  | [] => [d]
  | e :: rest =>
    if d.score ≤ e.score then d :: e :: rest else e :: insertByScore d rest

/-- Score-ascending insertion sort modelling `sort_unstable` under the
score-comparing `Ord` instance. -/
def sortByScore : List PhysicalDevice → List PhysicalDevice
  | [] => []
  | d :: rest => insertByScore d (sortByScore rest)

/-- The physical-device selection of `Renderer::new` (src/src/graphics/mod.rs,
lines 28–46): filter by `is_suitable`, fail if none remain, sort ascending by
score, reverse, take the first (the `unwrap` on `first()` cannot fail there,
modelled as `Res.panics` on the unreachable branch). -/
def Renderer.selectPhysicalDevice (required : List String)
    (devices : List PhysicalDevice) : Res PhysicalDevice :=
  let physical_devices :=
    devices.filter fun item => item.is_suitable required
  if physical_devices.isEmpty then
    Res.err "no suitable physical devices were found"
  else
    match ((sortByScore physical_devices).reverse).head? with
    | some best => Res.ok best
    | none => Res.panics

/-! ## One-shot application initialization

From src/titan_core/src/app/mod.rs, lines 174–194. -/

/-- `AtomicBool::compare_exchange(current, new, ...)`: returns `Ok(previous)`
and stores `new` when the previous value equals `current`, otherwise
`Err(previous)` and leaves the flag unchanged. -/
def compare_exchange (flag current new : Bool) :
    Bool × Except Bool Bool :=
  if flag = current then (new, Except.ok flag) else (flag, Except.error flag)

/-- Outcome of one call to `init`. -/
inductive InitOutcome where
  | application_created
  | error_returned : String → InitOutcome
  | panics
deriving DecidableEq, Repr

/-- `init` (src/titan_core/src/app/mod.rs, lines 174–194): compare-exchange
the static `FLAG` from `UNINITIALIZED` (false) to `INITIALIZED` (true), then
`.unwrap()` the result; construct the application when the previous value was
`false`, otherwise return the "cannot create more than one application
instance" error. The input flag is the state of `FLAG` before the call
(true exactly when a previous call already completed the exchange);
`Application::new`'s own fallibility is abstracted as success. -/
def init (flag : Bool) : Bool × InitOutcome :=
  let r := compare_exchange flag false true
  match r.2 with
  | Except.error _ => (r.1, InitOutcome.panics)
  | Except.ok initialized =>
    if !initialized then (r.1, InitOutcome.application_created)
    else
      (r.1, InitOutcome.error_returned
        "cannot create more than one application instance")

/-! ## Arena operation sequences

Driver for quantifying over arbitrary interleavings of arena operations
(§8 of the spec quantifies its arena properties over operation sequences). -/

/-- One arena operation: an insert with a construct closure, or a removal. -/
inductive SMOp (α : Type) where
  | ins : (SMKey → α) → SMOp α
  | rem : SMKey → SMOp α

/-- Run a sequence of arena operations, collecting the keys returned by the
inserts in order. -/
def runOps {α : Type} : SlotMap α → List (SMOp α) → SlotMap α × List SMKey
  | m, [] => (m, [])
  | m, SMOp.ins f :: rest =>
    let r := m.insert_with_key f
    let t := runOps r.1 rest
    (t.1, r.2 :: t.2)
  | m, SMOp.rem k :: rest => runOps (m.remove k).1 rest

/-- Sample command pool used to exercise the teardown embedding at concrete
inputs. -/
def samplePool : CommandPool := ⟨⟨0, 0⟩, 5, ⟨0, 0⟩⟩

/-- Sample driver whose create calls all succeed. -/
def sampleDriver : Driver :=
  ⟨fun d => Except.ok (d + 10), fun d => Except.ok (d + 20),
   fun d c => Except.ok (d + c + 30), fun d => Except.ok [d + 40]⟩

end Titan

namespace Titan

/-! ## Theorems for the claims -/

/-- Spec-side restatement of the device-type component of `score`. -/
def device_type_score : PhysicalDeviceType → Nat
  | PhysicalDeviceType.discrete_gpu => 1000
  | PhysicalDeviceType.integrated_gpu => 100
  | _ => 0

/-- C9: no teardown body (`Drop` for `CommandPool`, `GraphicsPipeline`,
`Framebuffer`) removes or modifies any entry of any arena: the arenas after
the body ran are exactly the arenas before (the bodies perform only
read-locked lookups; removal of the record itself from its own arena is done
by the surrounding release mechanism, not by these bodies). -/
theorem drop_preserves_arenas :
    ∀ (s : Arenas) (cp : CommandPool) (gp : GraphicsPipeline)
      (fb : Framebuffer),
      (CommandPool.drop s cp).2 = s ∧ (GraphicsPipeline.drop s gp).2 = s ∧
        (Framebuffer.drop s fb).2 = s := by
  intro s cp gp fb
  refine ⟨?_, ?_, ?_⟩
  · unfold CommandPool.drop
    repeat' split
    all_goals rfl
  · unfold GraphicsPipeline.drop
    repeat' split
    all_goals rfl
  · unfold Framebuffer.drop
    repeat' split
    all_goals rfl

/-- C1 counterexample: dropping a `CommandPool` whose parent device record
is absent from the (empty, unpoisoned) device arena panics — the body calls
`get(..).expect("device not found")` — so teardown does not degrade to a
no-op for every resource type. -/
theorem commandPool_drop_missing_parent_panics :
    (CommandPool.drop Arenas.empty samplePool).1 = DropOutcome.panics := rfl

/-- C1 amended: `GraphicsPipeline` and `Framebuffer` teardown never panics,
for every arena state (missing parents and poisoned locks degrade to a
no-op); `CommandPool` teardown instead panics exactly when the device
arena's lock is poisoned or the parent device record is absent. -/
theorem drop_panic_characterization :
    ∀ (s : Arenas) (gp : GraphicsPipeline) (fb : Framebuffer)
      (cp : CommandPool),
      (GraphicsPipeline.drop s gp).1 ≠ DropOutcome.panics ∧
      (Framebuffer.drop s fb).1 ≠ DropOutcome.panics ∧
      ((CommandPool.drop s cp).1 = DropOutcome.panics ↔
        s.devices.poisoned = true ∨
          s.devices.map.get cp.parent_device = none) := by
  intro s gp fb cp
  refine ⟨?_, ?_, ?_⟩
  · unfold GraphicsPipeline.drop
    repeat' split
    all_goals simp
  · unfold Framebuffer.drop
    repeat' split
    all_goals simp
  · unfold CommandPool.drop Arena.lock
    by_cases hp : s.devices.poisoned
    · simp [hp]
    · simp only [hp, if_false, Bool.false_eq_true, false_or]
      cases hg : s.devices.map.get cp.parent_device <;> simp [hg]

/-- C10: once `init` has completed, a second call panics — the failed
`compare_exchange` returns `Err`, immediately unwrapped — so the
error-returning branch (`"cannot create more than one application
instance"`) is unreachable; a first call observes `Ok(false)` and
constructs the application. -/
theorem init_second_call_panics :
    init true = (true, InitOutcome.panics) ∧
    init false = (true, InitOutcome.application_created) ∧
    ∀ (f : Bool) (m : String),
      (init f).2 ≠ InitOutcome.error_returned m := by
  refine ⟨rfl, rfl, ?_⟩
  intro f m
  cases f <;> simp [init, compare_exchange]

/-- C4 counterexample: a discrete device with maximum 2-D image dimension
4096 scores 1000 + 4096 = 5096, not the 5100 the claim (and §8 of the spec)
states. -/
theorem discrete_score_is_5096_not_5100 :
    (PhysicalDevice.mk PhysicalDeviceType.discrete_gpu 4096 [] []).score
        = 5096 ∧
    ¬ (PhysicalDevice.mk PhysicalDeviceType.discrete_gpu 4096 [] []).score
        = 5100 := by
  refine ⟨rfl, ?_⟩
  intro h
  simp [PhysicalDevice.score] at h

/-- C4 amended: `score` is the device-type component (1000 discrete, 100
integrated, 0 otherwise) plus `max_image_dimension2_d`; in particular an
integrated device with capability 8192 scores 8292 and beats a discrete
device with capability 4096, which scores 5096 (not 5100). -/
theorem score_formula :
    (∀ d : PhysicalDevice,
      d.score = device_type_score d.device_type + d.max_image_dimension2_d) ∧
    ∀ (q1 q2 : List QueueFamilyProperties) (e1 e2 : List String),
      (PhysicalDevice.mk PhysicalDeviceType.integrated_gpu 8192 q1 e1).score
          = 8292 ∧
      (PhysicalDevice.mk PhysicalDeviceType.discrete_gpu 4096 q2 e2).score
          = 5096 ∧
      (PhysicalDevice.mk PhysicalDeviceType.discrete_gpu 4096 q2 e2).score <
        (PhysicalDevice.mk PhysicalDeviceType.integrated_gpu 8192 q1
          e1).score := by
  constructor
  · intro d
    cases h : d.device_type <;>
      simp [PhysicalDevice.score, device_type_score, h]
  · intro q1 q2 e1 e2
    refine ⟨?_, ?_, ?_⟩ <;> simp [PhysicalDevice.score]

/-- C2 counterexample: `CommandPool::new` with a parent device key that has
no live record in the (empty, unpoisoned) device arena panics on the
`expect("device not found")` instead of returning a NotFound error. -/
theorem commandPool_new_missing_parent_panics :
    (CommandPool.new sampleDriver Arenas.empty ⟨0, 0⟩).res = Res.panics :=
  rfl

/-- C2 amended: with a parent key that has no live record in the parent
arena, `Framebuffer::new` and `GraphicsPipeline::new` return a
not-found error, perform no native call, and leave every arena unchanged;
`CommandPool::new` likewise performs no native call and changes no arena,
but panics instead of returning the error. -/
theorem creation_missing_parent_behaviour :
    ∀ (d : Driver) (s : Arenas) (k pk kr kl : SMKey),
      (s.devices.poisoned = false → s.devices.map.get k = none →
        (CommandPool.new d s k).res = Res.panics ∧
        (CommandPool.new d s k).calls = [] ∧
        (CommandPool.new d s k).arenas = s) ∧
      (s.devices.poisoned = false → s.devices.map.get k = none →
        (Framebuffer.new d s k).res = Res.err "device not found" ∧
        (Framebuffer.new d s k).calls = [] ∧
        (Framebuffer.new d s k).arenas = s) ∧
      (s.pipeline_layouts.poisoned = false →
        s.pipeline_layouts.map.get kl = none →
        (GraphicsPipeline.new d s pk kr kl).res =
          Res.err "pipeline layout not found" ∧
        (GraphicsPipeline.new d s pk kr kl).calls = [] ∧
        (GraphicsPipeline.new d s pk kr kl).arenas = s) ∧
      ∀ pl : PipelineLayout, s.pipeline_layouts.poisoned = false →
        s.pipeline_layouts.map.get kl = some pl →
        s.render_passes.poisoned = false →
        s.render_passes.map.get kr = none →
        (GraphicsPipeline.new d s pk kr kl).res =
          Res.err "render pass not found" ∧
        (GraphicsPipeline.new d s pk kr kl).calls = [] ∧
        (GraphicsPipeline.new d s pk kr kl).arenas = s := by
  intro d s k pk kr kl
  refine ⟨?_, ?_, ?_, ?_⟩
  · intro hp hg
    unfold CommandPool.new Arena.lock
    simp [hp, hg]
  · intro hp hg
    unfold Framebuffer.new Arena.lock
    simp [hp, hg]
  · intro hp hg
    unfold GraphicsPipeline.new Arena.lock
    simp [hp, hg]
  · intro pl hp hg hrp hrg
    unfold GraphicsPipeline.new Arena.lock
    simp [hp, hg, hrp, hrg]

/-- C2 amended, witness: at the empty arenas every hypothesis holds and the
stated outcomes evaluate as claimed. -/
theorem creation_missing_parent_behaviour_witness :
    (CommandPool.new sampleDriver Arenas.empty ⟨0, 1⟩).res = Res.panics ∧
    (Framebuffer.new sampleDriver Arenas.empty ⟨0, 1⟩).res =
      Res.err "device not found" ∧
    (GraphicsPipeline.new sampleDriver Arenas.empty ⟨0, 1⟩ ⟨0, 1⟩
      ⟨0, 1⟩).res = Res.err "pipeline layout not found" := by
  have h := creation_missing_parent_behaviour sampleDriver Arenas.empty
    ⟨0, 1⟩ ⟨0, 1⟩ ⟨0, 1⟩ ⟨0, 1⟩
  exact ⟨(h.1 rfl rfl).1, (h.2.1 rfl rfl).1, (h.2.2.1 rfl rfl).1⟩

/-- C3: when the pipeline layout, the render pass, and the render pass's
swapchain all resolve but the swapchain's device key differs from the
layout's device key, `GraphicsPipeline::new` fails with the
incompatible-ancestry error, performs no native call (in particular no
transient shader-module create and no `create_graphics_pipelines`), and
leaves every arena — in particular the pipeline arena — unchanged. -/
theorem graphicsPipeline_new_incompatible_ancestry :
    ∀ (d : Driver) (s : Arenas) (pk kr kl : SMKey) (pl : PipelineLayout)
      (rp : RenderPass) (sc : Swapchain),
      s.pipeline_layouts.poisoned = false →
      s.pipeline_layouts.map.get kl = some pl →
      s.render_passes.poisoned = false →
      s.render_passes.map.get kr = some rp →
      s.swapchains.poisoned = false →
      s.swapchains.map.get rp.parent_swapchain = some sc →
      sc.parent_device ≠ pl.parent_device →
      (GraphicsPipeline.new d s pk kr kl).res =
        Res.err "pipeline layout and render pass must have the same parent" ∧
      (GraphicsPipeline.new d s pk kr kl).calls = [] ∧
      (GraphicsPipeline.new d s pk kr kl).arenas = s := by
  intro d s pk kr kl pl rp sc hlp hlg hrp hrg hsp hsg hne
  unfold GraphicsPipeline.new Arena.lock
  simp [hlp, hlg, hrp, hrg, hsp, hsg, hne]

/-- Arenas holding one pipeline layout whose parent device key differs from
the parent device key of the swapchain behind the one render pass. -/
def mismatchedArenas : Arenas where
  devices := Arena.empty
  swapchains := ⟨false, ⟨[⟨0, some ⟨⟨1, 0⟩⟩⟩], []⟩⟩
  render_passes := ⟨false, ⟨[⟨0, some ⟨2, ⟨0, 0⟩⟩⟩], []⟩⟩
  pipeline_layouts := ⟨false, ⟨[⟨0, some ⟨1, ⟨0, 0⟩⟩⟩], []⟩⟩
  command_pools := Arena.empty

/-- C3 witness: at `mismatchedArenas` the parents resolve to device keys
⟨1,0⟩ and ⟨0,0⟩ and creation fails with the incompatible-ancestry error. -/
theorem graphicsPipeline_new_incompatible_ancestry_witness :
    (GraphicsPipeline.new sampleDriver mismatchedArenas ⟨0, 0⟩ ⟨0, 0⟩
      ⟨0, 0⟩).res =
      Res.err "pipeline layout and render pass must have the same parent" ∧
    (GraphicsPipeline.new sampleDriver mismatchedArenas ⟨0, 0⟩ ⟨0, 0⟩
      ⟨0, 0⟩).calls = [] :=
  have h := graphicsPipeline_new_incompatible_ancestry sampleDriver
    mismatchedArenas ⟨0, 0⟩ ⟨0, 0⟩ ⟨0, 0⟩ ⟨1, ⟨0, 0⟩⟩ ⟨2, ⟨0, 0⟩⟩ ⟨⟨1, 0⟩⟩
    rfl rfl rfl rfl rfl rfl (by decide)
  ⟨h.1, h.2.1⟩

/-- Helper: the filtered enumeration of queue families is nonempty exactly
when some queue family satisfies the predicate (the index added by
`enumerate` is irrelevant to the filter). -/
lemma filter_enumFrom_ne_nil (flags : Nat) :
    ∀ (l : List QueueFamilyProperties) (n : Nat),
      ((List.enumFrom n l).filter fun p =>
          QueueFlags.contains p.2.queue_flags flags).isEmpty = false ↔
        ∃ a ∈ l, QueueFlags.contains a.queue_flags flags = true := by
  intro l
  induction l with
  | nil => intro n; simp [List.enumFrom]
  | cons a t ih =>
    intro n
    cases hq : QueueFlags.contains a.queue_flags flags <;>
      simp [List.enumFrom_cons, List.filter_cons, hq, ih (n + 1)]

/-- Helper: the match flag of a consuming `find` is membership. -/
lemma PhysicalDevice.find_consuming_fst (t : String) :
    ∀ l : List String, (PhysicalDevice.find_consuming t l).1 = true ↔ t ∈ l := by
  intro l
  induction l with
  | nil => simp [PhysicalDevice.find_consuming]
  | cons n rest ih =>
    by_cases h : n = t
    · subst h
      simp [PhysicalDevice.find_consuming]
    · have hmem : t ∈ n :: rest ↔ t ∈ rest := by
        rw [List.mem_cons]
        constructor
        · intro hc
          cases hc with
          | inl he => exact absurd he.symm h
          | inr hm => exact hm
        · exact Or.inr
      simp [PhysicalDevice.find_consuming, h, ih, hmem]

/-- Helper: a failed consuming `find` exhausts the iterator. -/
lemma PhysicalDevice.find_consuming_snd_of_not_mem (t : String) :
    ∀ l : List String, t ∉ l → (PhysicalDevice.find_consuming t l).2 = [] := by
  intro l
  induction l with
  | nil => intro _; rfl
  | cons n rest ih =>
    intro h
    rw [List.mem_cons] at h
    push_neg at h
    have hne : ¬ n = t := fun hc => h.1 hc.symm
    simp [PhysicalDevice.find_consuming, hne, ih h.2]

/-- Helper: the consuming scan over an exhausted names iterator fails for
every required list. -/
lemma PhysicalDevice.any_find_consuming_nil : ∀ rs : List String,
    PhysicalDevice.any_find_consuming [] rs = false := by
  intro rs
  induction rs with
  | nil => rfl
  | cons r rest ih => simp [PhysicalDevice.any_find_consuming, PhysicalDevice.find_consuming, ih]

/-- C5: `is_suitable` is true exactly when some queue family's flags contain
GRAPHICS and the consuming required-extension scan succeeds; moreover,
because the names iterator is shared across the searches of the
short-circuiting `any`, the scan over a nonempty required list succeeds
exactly when its first name occurs among the extension names. -/
theorem is_suitable_characterization :
    ∀ (required : List String) (dev : PhysicalDevice),
      (dev.is_suitable required = true ↔
        (∃ qf ∈ dev.queue_family_properties,
          QueueFlags.contains qf.queue_flags GRAPHICS = true) ∧
        PhysicalDevice.any_find_consuming dev.extension_names required = true) ∧
      ∀ (names : List String) (r : String) (rs : List String),
        (PhysicalDevice.any_find_consuming names (r :: rs) = true ↔ r ∈ names) := by
  intro required dev
  constructor
  · unfold PhysicalDevice.is_suitable PhysicalDevice.queue_family_properties_with
    rw [Bool.and_eq_true, Bool.not_eq_true']
    rw [show dev.queue_family_properties.enum =
      List.enumFrom 0 dev.queue_family_properties from rfl]
    rw [filter_enumFrom_ne_nil]
  · intro names r rs
    by_cases h : r ∈ names
    · have hf : (PhysicalDevice.find_consuming r names).1 = true :=
        (PhysicalDevice.find_consuming_fst r names).mpr h
      simp [PhysicalDevice.any_find_consuming, hf, h]
    · have hf : (PhysicalDevice.find_consuming r names).1 = false := by
        cases hb : (PhysicalDevice.find_consuming r names).1
        · rfl
        · exact absurd ((PhysicalDevice.find_consuming_fst r names).mp hb) h
      have hs := PhysicalDevice.find_consuming_snd_of_not_mem r names h
      simp [PhysicalDevice.any_find_consuming, hf, hs, PhysicalDevice.any_find_consuming_nil, h]

/-- Helper: membership in the insertion step of the score sort. -/
lemma mem_insertByScore (d x : PhysicalDevice) :
    ∀ l : List PhysicalDevice, x ∈ insertByScore d l ↔ x = d ∨ x ∈ l := by
  intro l
  induction l with
  | nil => simp [insertByScore]
  | cons e rest ih =>
    by_cases h : d.score ≤ e.score
    · simp [insertByScore, h, List.mem_cons]
    · simp only [insertByScore, h, if_false, List.mem_cons, ih]
      tauto

/-- Helper: the insertion step preserves score-ascending sortedness. -/
lemma pairwise_insertByScore (d : PhysicalDevice) :
    ∀ l : List PhysicalDevice,
      l.Pairwise (fun a b => a.score ≤ b.score) →
      (insertByScore d l).Pairwise (fun a b => a.score ≤ b.score) := by
  intro l
  induction l with
  | nil => intro _; simp [insertByScore]
  | cons e rest ih =>
    intro hp
    rw [List.pairwise_cons] at hp
    by_cases h : d.score ≤ e.score
    · rw [insertByScore, if_pos h, List.pairwise_cons]
      refine ⟨?_, List.pairwise_cons.mpr hp⟩
      intro b hb
      rw [List.mem_cons] at hb
      cases hb with
      | inl he => exact he ▸ h
      | inr hm => exact Nat.le_trans h (hp.1 b hm)
    · rw [insertByScore, if_neg h, List.pairwise_cons]
      refine ⟨?_, ih hp.2⟩
      intro b hb
      rw [mem_insertByScore] at hb
      cases hb with
      | inl he => exact he ▸ Nat.le_of_not_le h
      | inr hm => exact hp.1 b hm

/-- Helper: membership in the score sort. -/
lemma mem_sortByScore (x : PhysicalDevice) :
    ∀ l : List PhysicalDevice, x ∈ sortByScore l ↔ x ∈ l := by
  intro l
  induction l with
  | nil => simp [sortByScore]
  | cons d rest ih => simp [sortByScore, mem_insertByScore, ih]

/-- Helper: the score sort produces a score-ascending list. -/
lemma pairwise_sortByScore :
    ∀ l : List PhysicalDevice,
      (sortByScore l).Pairwise (fun a b => a.score ≤ b.score) := by
  intro l
  induction l with
  | nil => simp [sortByScore]
  | cons d rest ih => exact pairwise_insertByScore d (sortByScore rest) ih

/-- C6: selection excludes unsuitable devices, then picks a maximum-score
suitable device; with zero suitable survivors it fails with the
"no suitable physical devices were found" error (and, succeeding, the chosen
device is the one handed to `Device::new`). -/
theorem renderer_selection_correct :
    ∀ (required : List String) (devices : List PhysicalDevice),
      ((devices.filter fun item => item.is_suitable required) = [] →
        Renderer.selectPhysicalDevice required devices =
          Res.err "no suitable physical devices were found") ∧
      ((devices.filter fun item => item.is_suitable required) ≠ [] →
        ∃ best, Renderer.selectPhysicalDevice required devices =
            Res.ok best ∧
          best ∈ devices ∧ best.is_suitable required = true ∧
          ∀ x ∈ devices, x.is_suitable required = true →
            x.score ≤ best.score) := by
  intro required devices
  constructor
  · intro h
    unfold Renderer.selectPhysicalDevice
    simp [h]
  · intro h
    unfold Renderer.selectPhysicalDevice
    have hne : (devices.filter fun item =>
        item.is_suitable required).isEmpty = false :=
      List.isEmpty_eq_false.mpr h
    cases hh : (sortByScore (devices.filter fun item =>
        item.is_suitable required)).reverse.head? with
    | none =>
      exfalso
      rw [List.head?_eq_none_iff, List.reverse_eq_nil_iff] at hh
      apply h
      rcases List.exists_mem_of_ne_nil _ h with ⟨y, hy⟩
      have : y ∈ sortByScore (devices.filter fun item =>
          item.is_suitable required) := (mem_sortByScore y _).mpr hy
      rw [hh] at this
      exact absurd this (List.not_mem_nil y)
    | some m =>
      refine ⟨m, ?_, ?_, ?_, ?_⟩
      · simp [hne, hh]
      · have hm : m ∈ sortByScore (devices.filter fun item =>
            item.is_suitable required) := by
          rw [← List.mem_reverse]
          exact List.mem_of_mem_head? (hh ▸ rfl)
        rw [mem_sortByScore, List.mem_filter] at hm
        exact hm.1
      · have hm : m ∈ sortByScore (devices.filter fun item =>
            item.is_suitable required) := by
          rw [← List.mem_reverse]
          exact List.mem_of_mem_head? (hh ▸ rfl)
        rw [mem_sortByScore, List.mem_filter] at hm
        exact hm.2
      · intro x hx hsx
        have hxs : x ∈ sortByScore (devices.filter fun item =>
            item.is_suitable required) := by
          rw [mem_sortByScore, List.mem_filter]
          exact ⟨hx, hsx⟩
        have hrev : (sortByScore (devices.filter fun item =>
            item.is_suitable required)).reverse.Pairwise
              (fun a b => b.score ≤ a.score) := by
          rw [List.pairwise_reverse]
          exact pairwise_sortByScore _
        rw [← List.mem_reverse] at hxs
        cases hrl : (sortByScore (devices.filter fun item =>
            item.is_suitable required)).reverse with
        | nil => rw [hrl] at hxs; exact absurd hxs (List.not_mem_nil x)
        | cons hd tl =>
          rw [hrl] at hh hxs hrev
          rw [List.head?_cons, Option.some.injEq] at hh
          rw [List.pairwise_cons] at hrev
          rw [List.mem_cons] at hxs
          cases hxs with
          | inl he => exact he ▸ hh ▸ Nat.le_refl _
          | inr hm => exact hh ▸ hrev.1 x hm

/-- The extension list used by the concrete selection scenario. -/
def sampleRequired : List String := ["ext"]

/-- Suitable discrete device with capability component 4096. -/
def sampleDiscrete : PhysicalDevice :=
  ⟨PhysicalDeviceType.discrete_gpu, 4096, [⟨1⟩], ["ext"]⟩

/-- Suitable integrated device with capability component 8192. -/
def sampleIntegrated : PhysicalDevice :=
  ⟨PhysicalDeviceType.integrated_gpu, 8192, [⟨1⟩], ["ext"]⟩

/-- Unsuitable device: no queue family supports graphics. -/
def sampleUnsuitable : PhysicalDevice :=
  ⟨PhysicalDeviceType.discrete_gpu, 99999, [⟨0⟩], ["ext"]⟩

/-- C6 witness: on the spec's three-candidate scenario the unsuitable
candidate is excluded and a maximum-score survivor is selected. -/
theorem renderer_selection_correct_witness :
    ∃ best,
      Renderer.selectPhysicalDevice sampleRequired
          [sampleDiscrete, sampleUnsuitable, sampleIntegrated] =
        Res.ok best ∧
      best ∈ [sampleDiscrete, sampleUnsuitable, sampleIntegrated] ∧
      best.is_suitable sampleRequired = true ∧
      ∀ x ∈ [sampleDiscrete, sampleUnsuitable, sampleIntegrated],
        x.is_suitable sampleRequired = true → x.score ≤ best.score :=
  (renderer_selection_correct sampleRequired
    [sampleDiscrete, sampleUnsuitable, sampleIntegrated]).2 (by decide)

/-! ### Slot-map key lemmas (C7, C8) -/

/-- A pure insert sequence: the operation list of C7. -/
def runInserts {α : Type} (m : SlotMap α) (fs : List (SMKey → α)) :
    SlotMap α × List SMKey :=
  runOps m (fs.map SMOp.ins)

/-- Helper: an index resolved by `getElem?` is in range. -/
lemma idx_lt_of_getElem?_some {α : Type} {l : List (Slot α)} {i : Nat}
    {s : Slot α} (h : l[i]? = some s) : i < l.length := by
  rcases List.getElem?_eq_some_iff.mp h with ⟨hlt, _⟩
  exact hlt

/-- Equation: insert with an empty free list appends a fresh slot. -/
lemma SlotMap.ins_nil {α : Type} (slots : List (Slot α)) (f : SMKey → α) :
    (SlotMap.mk slots []).insert_with_key f =
      (⟨slots ++ [⟨0, some (f ⟨slots.length, 0⟩)⟩], []⟩,
        ⟨slots.length, 0⟩) := rfl

/-- Equation: insert with a resolvable head of the free list reuses that
slot under its current generation. -/
lemma SlotMap.ins_cons_some {α : Type} (slots : List (Slot α)) (i : Nat)
    (restf : List Nat) (f : SMKey → α) (slot : Slot α)
    (hs : slots[i]? = some slot) :
    (SlotMap.mk slots (i :: restf)).insert_with_key f =
      (⟨slots.set i ⟨slot.gen, some (f ⟨i, slot.gen⟩)⟩, restf⟩,
        ⟨i, slot.gen⟩) := by
  unfold SlotMap.insert_with_key
  simp only []
  rw [hs]

/-- Equation: insert with an unresolvable head of the free list appends a
fresh slot. -/
lemma SlotMap.ins_cons_none {α : Type} (slots : List (Slot α)) (i : Nat)
    (restf : List Nat) (f : SMKey → α) (hs : slots[i]? = none) :
    (SlotMap.mk slots (i :: restf)).insert_with_key f =
      (⟨slots ++ [⟨0, some (f ⟨slots.length, 0⟩)⟩], restf⟩,
        ⟨slots.length, 0⟩) := by
  unfold SlotMap.insert_with_key
  simp only []
  rw [hs]

/-- Equation: `runInserts` on an empty closure list. -/
lemma runInserts_nil {α : Type} (m : SlotMap α) :
    runInserts m [] = (m, []) := rfl

/-- Equation: `runInserts` on a cons performs the head insert first. -/
lemma runInserts_cons {α : Type} (m : SlotMap α) (f : SMKey → α)
    (fs : List (SMKey → α)) :
    runInserts m (f :: fs) =
      ((runInserts (m.insert_with_key f).1 fs).1,
        (m.insert_with_key f).2 ::
          (runInserts (m.insert_with_key f).1 fs).2) :=
  rfl

/-- Helper: a lookup immediately after an insert yields the record that the
construct closure built from the returned key. -/
lemma get_insert_with_key {α : Type} (m : SlotMap α) (f : SMKey → α) :
    (m.insert_with_key f).1.get (m.insert_with_key f).2 =
      some (f (m.insert_with_key f).2) := by
  obtain ⟨slots, free⟩ := m
  cases free with
  | nil =>
    simp only [SlotMap.ins_nil]
    simp [SlotMap.get, List.getElem?_concat_length]
  | cons i restf =>
    cases hex : slots[i]? with
    | none =>
      simp only [SlotMap.ins_cons_none slots i restf f hex]
      simp [SlotMap.get, List.getElem?_concat_length]
    | some slot =>
      have hi : i < slots.length := idx_lt_of_getElem?_some hex
      simp only [SlotMap.ins_cons_some slots i restf f slot hex]
      simp [SlotMap.get, List.getElem?_set_self hi]

/-- Helper: every key produced by a pure insert sequence either reuses a
free-list index of the starting map or points past its end. -/
lemma runInserts_key_sources {α : Type} :
    ∀ (fs : List (SMKey → α)) (slots : List (Slot α)) (free : List Nat),
      (∀ i ∈ free, i < slots.length) →
      ∀ k ∈ (runInserts ⟨slots, free⟩ fs).2,
        k.idx ∈ free ∨ slots.length ≤ k.idx := by
  intro fs
  induction fs with
  | nil =>
    intro slots free _ k hk
    rw [runInserts_nil] at hk
    exact absurd hk (List.not_mem_nil k)
  | cons f rest ih =>
    intro slots free hb k hk
    rw [runInserts_cons, List.mem_cons] at hk
    cases free with
    | nil =>
      simp only [SlotMap.ins_nil] at hk
      cases hk with
      | inl he => exact Or.inr (he ▸ Nat.le_refl _)
      | inr hm =>
        have hrec := ih (slots ++ [⟨0, some (f ⟨slots.length, 0⟩)⟩]) []
          (by intro j hj; exact absurd hj (List.not_mem_nil j)) k hm
        cases hrec with
        | inl hmem => exact absurd hmem (List.not_mem_nil k.idx)
        | inr hle =>
          refine Or.inr (Nat.le_trans ?_ hle)
          rw [List.length_append]
          exact Nat.le_add_right _ _
    | cons i restf =>
      have hi : i < slots.length := hb i (List.mem_cons_self i restf)
      rcases hex : slots[i]? with _ | slot
      · have hcon := List.getElem?_eq_none_iff.mp hex
        omega
      · simp only [SlotMap.ins_cons_some slots i restf f slot hex] at hk
        cases hk with
        | inl he =>
          refine Or.inl ?_
          rw [he]
          exact List.mem_cons_self i restf
        | inr hm =>
          have hrec := ih
            (slots.set i ⟨slot.gen, some (f ⟨i, slot.gen⟩)⟩) restf
            (by
              intro j hj
              rw [List.length_set]
              exact hb j (List.mem_cons_of_mem i hj)) k hm
          cases hrec with
          | inl hmem => exact Or.inl (List.mem_cons_of_mem i hmem)
          | inr hle =>
            rw [List.length_set] at hle
            exact Or.inr hle

/-- Helper: a pure insert sequence starting from a map whose free list is
duplicate-free and in range returns pairwise distinct keys. -/
lemma runInserts_keys_nodup {α : Type} :
    ∀ (fs : List (SMKey → α)) (slots : List (Slot α)) (free : List Nat),
      free.Nodup → (∀ i ∈ free, i < slots.length) →
      (runInserts ⟨slots, free⟩ fs).2.Nodup := by
  intro fs
  induction fs with
  | nil =>
    intro slots free _ _
    rw [runInserts_nil]
    exact List.nodup_nil
  | cons f rest ih =>
    intro slots free hnd hb
    rw [runInserts_cons, List.nodup_cons]
    cases free with
    | nil =>
      simp only [SlotMap.ins_nil]
      constructor
      · intro hmem
        have hsrc := runInserts_key_sources rest
          (slots ++ [⟨0, some (f ⟨slots.length, 0⟩)⟩]) []
          (by intro j hj; exact absurd hj (List.not_mem_nil j))
          ⟨slots.length, 0⟩ hmem
        cases hsrc with
        | inl hc => exact absurd hc (List.not_mem_nil _)
        | inr hle =>
          rw [List.length_append] at hle
          have h2 : slots.length + 1 ≤ slots.length := hle
          omega
      · exact ih (slots ++ [⟨0, some (f ⟨slots.length, 0⟩)⟩]) []
          List.nodup_nil
          (by intro j hj; exact absurd hj (List.not_mem_nil j))
    | cons i restf =>
      have hi : i < slots.length := hb i (List.mem_cons_self i restf)
      rcases hex : slots[i]? with _ | slot
      · exfalso
        have hcon := List.getElem?_eq_none_iff.mp hex
        omega
      · simp only [SlotMap.ins_cons_some slots i restf f slot hex]
        have hnd2 : restf.Nodup := (List.nodup_cons.mp hnd).2
        have hnmem : i ∉ restf := (List.nodup_cons.mp hnd).1
        have hb2 : ∀ j ∈ restf,
            j < (slots.set i ⟨slot.gen,
              some (f ⟨i, slot.gen⟩)⟩).length := by
          intro j hj
          rw [List.length_set]
          exact hb j (List.mem_cons_of_mem i hj)
        constructor
        · intro hmem
          have hsrc := runInserts_key_sources rest
            (slots.set i ⟨slot.gen, some (f ⟨i, slot.gen⟩)⟩) restf
            hb2 ⟨i, slot.gen⟩ hmem
          cases hsrc with
          | inl hc => exact hnmem hc
          | inr hle =>
            rw [List.length_set] at hle
            have h2 : slots.length ≤ i := hle
            omega
        · exact ih (slots.set i ⟨slot.gen,
              some (f ⟨i, slot.gen⟩)⟩) restf hnd2 hb2

/-- C7: starting from any well-formed arena state (duplicate-free, in-range
free list — the empty arena in particular), every sequence of inserts
returns pairwise distinct keys, and a `get` with the key an insert just
returned yields exactly the record its construct closure received that key
to build. -/
theorem slotmap_insert_properties :
    ∀ (α : Type) (m : SlotMap α) (fs : List (SMKey → α)),
      m.free.Nodup → (∀ i ∈ m.free, i < m.slots.length) →
      (runInserts m fs).2.Nodup ∧
      ∀ (m2 : SlotMap α) (f : SMKey → α),
        (m2.insert_with_key f).1.get (m2.insert_with_key f).2 =
          some (f (m2.insert_with_key f).2) := by
  intro α m fs hnd hb
  obtain ⟨slots, free⟩ := m
  exact ⟨runInserts_keys_nodup fs slots free hnd hb,
    fun m2 f => get_insert_with_key m2 f⟩

/-- Insert closures used by the C7 witness. -/
def sampleInserts : List (SMKey → Nat) :=
  [fun k => k.gen + 1, fun k => k.idx + 5]

/-- C7 witness: from the empty arena, two inserts return distinct keys, and
lookup right after an insert returns the constructed record. -/
theorem slotmap_insert_properties_witness :
    (runInserts (SlotMap.empty : SlotMap Nat) sampleInserts).2.Nodup ∧
    ((SlotMap.empty : SlotMap Nat).insert_with_key fun k => k.idx).1.get
        ((SlotMap.empty : SlotMap Nat).insert_with_key fun k => k.idx).2 =
      some 0 := by
  have h := slotmap_insert_properties Nat SlotMap.empty sampleInserts
    List.nodup_nil (by intro i hi; exact absurd hi (List.not_mem_nil i))
  exact ⟨h.1, h.2 SlotMap.empty fun k => k.idx⟩

/-! ### Removed keys stay dead (C8) -/

/-- A key is dead in a map when its slot exists but has moved past the key's
generation; dead keys can never be resolved or reissued. -/
def DeadKey {α : Type} (k : SMKey) (m : SlotMap α) : Prop :=
  ∃ slot, m.slots[k.idx]? = some slot ∧ k.gen < slot.gen

/-- Equation: removing an unresolvable index is a no-op. -/
lemma SlotMap.rem_no_slot {α : Type} (slots : List (Slot α))
    (free : List Nat) (k : SMKey) (h : slots[k.idx]? = none) :
    (SlotMap.mk slots free).remove k = (SlotMap.mk slots free, none) := by
  unfold SlotMap.remove
  simp only []
  rw [h]

/-- Equation: removing a live key bumps the slot generation, vacates the
slot, and pushes the index on the free list. -/
lemma SlotMap.rem_hit {α : Type} (slots : List (Slot α)) (free : List Nat)
    (k : SMKey) (slot : Slot α) (h : slots[k.idx]? = some slot)
    (hc : slot.gen = k.gen ∧ slot.val.isSome) :
    (SlotMap.mk slots free).remove k =
      (⟨slots.set k.idx ⟨slot.gen + 1, none⟩, k.idx :: free⟩, slot.val) := by
  unfold SlotMap.remove
  simp only []
  rw [h]
  simp only []
  rw [if_pos hc]

/-- Equation: removing a stale or vacant key is a no-op. -/
lemma SlotMap.rem_miss {α : Type} (slots : List (Slot α)) (free : List Nat)
    (k : SMKey) (slot : Slot α) (h : slots[k.idx]? = some slot)
    (hc : ¬ (slot.gen = k.gen ∧ slot.val.isSome)) :
    (SlotMap.mk slots free).remove k = (SlotMap.mk slots free, none) := by
  unfold SlotMap.remove
  simp only []
  rw [h]
  simp only []
  rw [if_neg hc]

/-- Equation: `runOps` on the empty operation list. -/
lemma runOps_nil {α : Type} (m : SlotMap α) : runOps m [] = (m, []) := rfl

/-- Equation: `runOps` on a leading insert. -/
lemma runOps_ins {α : Type} (m : SlotMap α) (f : SMKey → α)
    (ops : List (SMOp α)) :
    runOps m (SMOp.ins f :: ops) =
      ((runOps (m.insert_with_key f).1 ops).1,
        (m.insert_with_key f).2 :: (runOps (m.insert_with_key f).1 ops).2) :=
  rfl

/-- Equation: `runOps` on a leading removal. -/
lemma runOps_rem {α : Type} (m : SlotMap α) (k : SMKey)
    (ops : List (SMOp α)) :
    runOps m (SMOp.rem k :: ops) = runOps (m.remove k).1 ops := rfl

/-- Helper: a dead key resolves to nothing. -/
lemma dead_get_none {α : Type} (k : SMKey) (m : SlotMap α)
    (h : DeadKey k m) : m.get k = none := by
  rcases h with ⟨slot, hs, hlt⟩
  unfold SlotMap.get
  rw [hs]
  simp only []
  rw [if_neg (Nat.ne_of_gt hlt)]

/-- Helper: removing a live key leaves it dead. -/
lemma dead_after_remove {α : Type} (m : SlotMap α) (k : SMKey) (v : α)
    (h : m.get k = some v) : DeadKey k (m.remove k).1 := by
  obtain ⟨slots, free⟩ := m
  rcases hs : slots[k.idx]? with _ | slot
  · exfalso
    unfold SlotMap.get at h
    simp only [] at h
    rw [hs] at h
    exact Option.noConfusion h
  · unfold SlotMap.get at h
    simp only [] at h
    rw [hs] at h
    simp only [] at h
    by_cases hg : slot.gen = k.gen
    · rw [if_pos hg] at h
      have hval : slot.val.isSome := by
        rw [h]
        rfl
      rw [SlotMap.rem_hit slots free k slot hs ⟨hg, hval⟩]
      refine ⟨⟨slot.gen + 1, none⟩, ?_, ?_⟩
      · exact List.getElem?_set_self (idx_lt_of_getElem?_some hs)
      · rw [← hg]
        exact Nat.lt_succ_self _
    · rw [if_neg hg] at h
      exact Option.noConfusion h

/-- Helper: an insert neither revives a dead key nor returns it. -/
lemma dead_insert {α : Type} (k : SMKey) (m : SlotMap α) (f : SMKey → α)
    (h : DeadKey k m) :
    DeadKey k (m.insert_with_key f).1 ∧ (m.insert_with_key f).2 ≠ k := by
  obtain ⟨slots, free⟩ := m
  rcases h with ⟨slot, hs, hlt⟩
  have hklt : k.idx < slots.length := idx_lt_of_getElem?_some hs
  cases free with
  | nil =>
    rw [SlotMap.ins_nil]
    refine ⟨⟨slot, ?_, hlt⟩, ?_⟩
    · rw [List.getElem?_append_left hklt]
      exact hs
    · intro he
      have hidx : k.idx = slots.length := by
        rw [← he]
      omega
  | cons i restf =>
    rcases hex : slots[i]? with _ | slot2
    · rw [SlotMap.ins_cons_none slots i restf f hex]
      refine ⟨⟨slot, ?_, hlt⟩, ?_⟩
      · rw [List.getElem?_append_left hklt]
        exact hs
      · intro he
        have hidx : k.idx = slots.length := by
          rw [← he]
        omega
    · rw [SlotMap.ins_cons_some slots i restf f slot2 hex]
      by_cases hik : i = k.idx
      · have hslot : slot2 = slot := by
          rw [hik, hs] at hex
          exact (Option.some.inj hex).symm
        refine ⟨⟨⟨slot2.gen, some (f ⟨i, slot2.gen⟩)⟩, ?_, ?_⟩, ?_⟩
        · rw [hik]
          exact List.getElem?_set_self hklt
        · rw [hslot]
          exact hlt
        · intro he
          have hgen : slot2.gen = k.gen := congrArg SMKey.gen he
          rw [hslot] at hgen
          omega
      · refine ⟨⟨slot, ?_, hlt⟩, ?_⟩
        · rw [List.getElem?_set_ne hik]
          exact hs
        · intro he
          apply hik
          exact congrArg SMKey.idx he

/-- Helper: no removal revives a dead key. -/
lemma dead_remove {α : Type} (k k2 : SMKey) (m : SlotMap α)
    (h : DeadKey k m) : DeadKey k (m.remove k2).1 := by
  obtain ⟨slots, free⟩ := m
  rcases h with ⟨slot, hs, hlt⟩
  rcases hex : slots[k2.idx]? with _ | slot2
  · rw [SlotMap.rem_no_slot slots free k2 hex]
    exact ⟨slot, hs, hlt⟩
  · by_cases hc : slot2.gen = k2.gen ∧ slot2.val.isSome
    · rw [SlotMap.rem_hit slots free k2 slot2 hex hc]
      by_cases hik : k2.idx = k.idx
      · have hslot : slot2 = slot := by
          rw [hik, hs] at hex
          exact (Option.some.inj hex).symm
        have hk2lt : k2.idx < slots.length := by
          rw [hik]
          exact idx_lt_of_getElem?_some hs
        refine ⟨⟨slot2.gen + 1, none⟩, ?_, ?_⟩
        · rw [← hik]
          exact List.getElem?_set_self hk2lt
        · rw [hslot]
          exact Nat.lt_succ_of_lt hlt
      · refine ⟨slot, ?_, hlt⟩
        rw [List.getElem?_set_ne hik]
        exact hs
    · rw [SlotMap.rem_miss slots free k2 slot2 hex hc]
      exact ⟨slot, hs, hlt⟩

/-- Helper: a dead key stays dead across any operation sequence and is never
among the keys the inserts of that sequence return. -/
lemma dead_runOps {α : Type} (k : SMKey) :
    ∀ (ops : List (SMOp α)) (m : SlotMap α), DeadKey k m →
      DeadKey k (runOps m ops).1 ∧ k ∉ (runOps m ops).2 := by
  intro ops
  induction ops with
  | nil =>
    intro m h
    rw [runOps_nil]
    exact ⟨h, List.not_mem_nil k⟩
  | cons op rest ih =>
    intro m h
    cases op with
    | ins f =>
      have hstep := dead_insert k m f h
      have hrec := ih (m.insert_with_key f).1 hstep.1
      rw [runOps_ins]
      refine ⟨hrec.1, ?_⟩
      rw [List.mem_cons]
      rintro (he | hm)
      · exact hstep.2 he.symm
      · exact hrec.2 hm
    | rem k2 =>
      have hstep := dead_remove k k2 m h
      have hrec := ih (m.remove k2).1 hstep
      rw [runOps_rem]
      exact hrec

/-- C8: after a live key is removed, every subsequent operation sequence
leaves `get` on that key returning `none`, and no later insert ever returns
a key equal to it (the reused slot carries a strictly larger generation). -/
theorem slotmap_removed_key_never_reissued :
    ∀ (α : Type) (m : SlotMap α) (k : SMKey) (v : α) (ops : List (SMOp α)),
      m.get k = some v →
      (runOps (m.remove k).1 ops).1.get k = none ∧
      k ∉ (runOps (m.remove k).1 ops).2 := by
  intro α m k v ops h
  have hd := dead_after_remove m k v h
  have hr := dead_runOps k ops (m.remove k).1 hd
  exact ⟨dead_get_none k _ hr.1, hr.2⟩

/-- The one-record map used by the C8 witness. -/
def sampleMap : SlotMap Nat := ⟨[⟨0, some 42⟩], []⟩

/-- C8 witness: key ⟨0,0⟩ is live in `sampleMap`; after removing it and then
inserting again (which reuses slot 0 under generation 1), the removed key
resolves to nothing and is not among the keys returned. -/
theorem slotmap_removed_key_never_reissued_witness :
    ((runOps (sampleMap.remove ⟨0, 0⟩).1 [SMOp.ins fun _ => 7]).1.get
        ⟨0, 0⟩ = none) ∧
    (⟨0, 0⟩ : SMKey) ∉
      (runOps (sampleMap.remove ⟨0, 0⟩).1 [SMOp.ins fun _ => 7]).2 :=
  slotmap_removed_key_never_reissued Nat sampleMap ⟨0, 0⟩ 42
    [SMOp.ins fun _ => 7] rfl

end Titan
